import Mathlib

/-!
Verification of the microRNA activity-map pipeline (`src/main.py`) against its
specification.  The orchestration code in `main.py` is embedded shallowly:
pure computations become Lean functions, and calls to collaborator functions
from the `utils` module (which is outside `src/`) are recorded in an event
trace, with the collaborators themselves abstracted as a record of functions.
-/

set_option linter.unusedVariables false

namespace MirMaps

/-- The two supported dataset types (`constants._DATA_TYPE_SPATIAL` and
`constants._DATA_TYPE_SINGLE_CELL`). -/
inductive DataType
  | spatial
  | singleCell
deriving DecidableEq, Repr

/-- A count matrix: rows are genes, columns are cells/spots.  `rows` holds one
list of expression values per gene, indexed in parallel with `genes`. -/
structure DataFrame where
  genes : List String
  cells : List String
  rows : List (List ℚ)
deriving DecidableEq, Repr

/-- The target catalog (`mti_data`): microRNA identifier to target gene list. -/
abbrev MtiData := List (String × List String)

/-- The activity result matrix: one row of p-values per microRNA. -/
abbrev PvalMatrix := List (String × List ℚ)

/-- Errors surfaced to the user.  `utils.UsageError` carries the offending
path; flag-validation errors carry the offending value and the supported set. -/
inductive UsageError
  | noSpatialData (path : String)
  | noScData (path : String)
  | unsupportedSpecies (value : String) (supported : List String)
  | unsupportedDraw (value : String) (supported : List String)
  | missingRequired
deriving DecidableEq, Repr

/-- One collaborator call made by the orchestration code in `main.py`.
Events record the arguments that matter for the claims: the data path probed
by detection, the matrices handed to the postprocessors, and the results
path / cpu count handed to writers. -/
inductive Event
  | check_data_type (path : String)
  | visium_loader (path : String)
  | scRNAseq_preprocess_loader (dataset_name path : String)
  | scRNAseq_loader (path : String)
  | normalize_counts
  | mir_data_loading (species : String)
  | compute_mir_activity (results_path : String) (cpus : Int)
  | get_spatial_coors (path : String) (counts_norm : DataFrame)
  | sort_activity_spatial (results_path : String)
  | get_figure_list
  | produce_spatial_maps (results_path : String)
  | generate_umap (counts : DataFrame)
  | sort_activity_sc
  | plot_sc (results_path : String)
deriving DecidableEq, Repr

/-- Modelled from the spec: the `utils` module and `mp.cpu_count()` are not
under `src/`; they are the external collaborators of §2/§4.3/§4.4 plus the
scoring primitive, abstracted as a record of functions so that the theorems
about `main.py` hold for every collaborator implementation. -/
structure Utils where
  check_data_type : String → DataType
  visium_loader : String → DataFrame
  scRNAseq_preprocess_loader : String → String → DataFrame
  scRNAseq_loader : String → DataFrame
  normalize_counts : DataFrame → DataFrame
  mir_data_loading : Option (List String) → String → Bool → MtiData × List String
  compute_mir_activity : DataFrame → List String → MtiData → String → Int → Bool → PvalMatrix
  cpu_count : Int

/-- Python truthiness of an `Optional[str]`: `None` and `''` are falsy. -/
def pyTruthyStr : Option String → Bool
  | none => false
  | some s => s ≠ ""

/-- Python `x or d` for `x : Optional[int]`: `None` and `0` are falsy. -/
def pyOrInt (x : Option Int) (d : Int) : Int :=
  match x with
  | none => d
  | some v => if v = 0 then d else v

def strStartsWith (s pre : String) : Bool :=
  pre.data.isPrefixOf s.data

def strEndsWith (s suf : String) : Bool :=
  suf.data.reverse.isPrefixOf s.data.reverse

/-- `os.path.join` for two components (posixpath semantics). -/
def os_path_join (a b : String) : String :=
  if strStartsWith b "/" then b
  else if a = "" || strEndsWith a "/" then a ++ b
  else a ++ "/" ++ b

/-- The results-path resolution performed at the top of `compute`
(`src/main.py` lines 290-294): `results_path/dataset_name` when `results_path`
is truthy, else `data_path/results`. -/
def resolved_results_path (results_path : Option String) (data_path dataset_name : String) :
    String :=
  match results_path with
  | some s => if s = "" then os_path_join data_path "results" else os_path_join s dataset_name
  | none => os_path_join data_path "results"

/-- The `if not data_type: data_type = utils.check_data_type(data_path)`
fallback shared by `data_handling` and both postprocessors: the value it
resolves to. -/
def resolvedDataType (u : Utils) (data_path : String) (data_type : Option DataType) : DataType :=
  match data_type with
  | none => u.check_data_type data_path
  | some dt => dt

/-- The trace of the same fallback: a detection call happens only when
`data_type` was not supplied. -/
def resolve_data_type_events (data_path : String) (data_type : Option DataType) : List Event :=
  match data_type with
  | none => [Event.check_data_type data_path]
  | some _ => []

/-- Default of the `preprocess` parameter of `data_handling`
(`src/main.py` line 76). -/
def data_handling_preprocess_default : Bool := true

/-- Default of the `preprocess` parameter of `compute`
(`src/main.py` line 256). -/
def compute_preprocess_default : Bool := true

/-- Default value of the `preprocess` CLI flag (`src/main.py` lines 47-50). -/
def FLAGS_preprocess_default : Bool := false

/-- Embedding of `data_handling` (`src/main.py` lines 75-102): resolve the
data type if absent, load via the type-appropriate loader (the preprocessing
flag selects the single-cell loader only), then normalize.  Returns the event
trace together with `(counts_norm, counts)`. -/
def data_handling (u : Utils) (data_path dataset_name : String)
    (data_type : Option DataType) (preprocess : Bool) :
    List Event × DataFrame × DataFrame :=
  let evs := resolve_data_type_events data_path data_type
  match resolvedDataType u data_path data_type with
  | DataType.spatial =>
      let counts := u.visium_loader data_path
      (evs ++ [Event.visium_loader data_path, Event.normalize_counts],
       u.normalize_counts counts, counts)
  | DataType.singleCell =>
      if preprocess then
        let counts := u.scRNAseq_preprocess_loader dataset_name data_path
        (evs ++ [Event.scRNAseq_preprocess_loader dataset_name data_path,
                 Event.normalize_counts],
         u.normalize_counts counts, counts)
      else
        let counts := u.scRNAseq_loader data_path
        (evs ++ [Event.scRNAseq_loader data_path, Event.normalize_counts],
         u.normalize_counts counts, counts)

/-- Embedding of `computing_mir_activity` (`src/main.py` lines 104-138):
`cpus = cpus or mp.cpu_count()`, load the target catalog and microRNA list,
then invoke the scoring engine with the resolved cpu count. -/
def computing_mir_activity (u : Utils) (counts_norm : DataFrame) (results_path : String)
    (miR_list : Option (List String)) (cpus : Option Int) (species : String) (debug : Bool) :
    List Event × List String × PvalMatrix :=
  let ncpus := pyOrInt cpus u.cpu_count
  let md := u.mir_data_loading miR_list species debug
  let pvals := u.compute_mir_activity counts_norm md.2 md.1 results_path ncpus debug
  ([Event.mir_data_loading species, Event.compute_mir_activity results_path ncpus],
   md.2, pvals)

/-- Embedding of `mir_post_processing_spatial` (`src/main.py` lines 141-195):
resolve the data type if absent, raise `UsageError` naming the path when it is
not spatial, otherwise run the spatial figure pipeline on `counts_norm`. -/
def mir_post_processing_spatial (u : Utils) (data_path : String) (counts_norm : DataFrame)
    (miR_activity_pvals : PvalMatrix) (miR_list : List String)
    (results_path dataset_name : String) (data_type : Option DataType)
    (miR_figures : String) (thresh : ℚ) :
    List Event × Option UsageError :=
  let evs := resolve_data_type_events data_path data_type
  if resolvedDataType u data_path data_type ≠ DataType.spatial then
    (evs, some (UsageError.noSpatialData data_path))
  else
    (evs ++ [Event.get_spatial_coors data_path counts_norm,
             Event.sort_activity_spatial results_path,
             Event.get_figure_list,
             Event.produce_spatial_maps results_path], none)

/-- Embedding of `mir_post_processing_sc` (`src/main.py` lines 197-250):
resolve the data type if absent, raise `UsageError` naming the path when it is
not single-cell, otherwise run the single-cell figure pipeline on the raw
`counts`. -/
def mir_post_processing_sc (u : Utils) (data_path : String) (counts : DataFrame)
    (miR_activity_pvals : PvalMatrix) (miR_list : List String)
    (results_path dataset_name : String) (data_type : Option DataType)
    (miR_figures : String) (populations : Option (List String)) :
    List Event × Option UsageError :=
  let evs := resolve_data_type_events data_path data_type
  if resolvedDataType u data_path data_type ≠ DataType.singleCell then
    (evs, some (UsageError.noScData data_path))
  else
    (evs ++ [Event.generate_umap counts,
             Event.sort_activity_sc,
             Event.get_figure_list,
             Event.plot_sc results_path], none)

/-- Embedding of `compute` (`src/main.py` lines 253-334): resolve the results
path, classify the data type once, load, score, and dispatch to exactly one
postprocessor, forwarding the stored data type to every callee. -/
def compute (u : Utils) (data_path dataset_name : String) (miR_list : Option (List String))
    (cpus : Option Int) (results_path : Option String) (species : String)
    (miR_figures : String) (preprocess : Bool) (thresh : ℚ)
    (populations : Option (List String)) (debug : Bool) :
    List Event × Option UsageError :=
  let rp := resolved_results_path results_path data_path dataset_name
  let dt := u.check_data_type data_path
  let dh := data_handling u data_path dataset_name (some dt) preprocess
  let cma := computing_mir_activity u dh.2.1 rp miR_list cpus species debug
  let post :=
    if dt = DataType.spatial then
      mir_post_processing_spatial u data_path dh.2.1 cma.2.2 cma.2.1 rp dataset_name
        (some dt) miR_figures thresh
    else
      mir_post_processing_sc u data_path dh.2.2 cma.2.2 cma.2.1 rp dataset_name
        (some dt) miR_figures populations
  (Event.check_data_type data_path :: (dh.1 ++ cma.1 ++ post.1), post.2)

/-- Modelled from the spec: `constants.py` is not under `src/`; the species
constant names come from the docstrings in `src/main.py` ("either
'homo_sapiens' (default) or 'mus_musculus' are supported"). -/
def SPECIES_HOMO_SAPIENS : String := "homo_sapiens"

/-- Modelled from the spec: the two supported species identifiers
(`constants._SUPPORTED_SPECIES`). -/
def SUPPORTED_SPECIES : List String := ["homo_sapiens", "mus_musculus"]

/-- Modelled from the spec: the default plot-selection mode
(`constants._DRAW_TOP_10`; §6 "top-10 / all / custom"). -/
def DRAW_TOP_10 : String := "top_10"

/-- Modelled from the spec: the fixed enumerated set of plot-selection modes
(`constants._SUPPORTED_DRAW`; §6 "top-10 / all / custom"). -/
def SUPPORTED_DRAW : List String := ["top_10", "all", "miR_list"]

/-- Modelled from the spec: the default activity threshold
(`constants._ACTIVITY_THRESH`, §6 "a fixed constant"; its exact value is not
in `src/` and no claim depends on it). -/
def ACTIVITY_THRESH : ℚ := 1 / 20

/-- The CLI flag values after parsing (`flags.DEFINE_*`, `src/main.py`
lines 23-61). -/
structure Flags where
  cpus : Option Int
  data_path : Option String
  dataset_name : Option String
  debug : Bool
  miR_figures : String
  miR_list : Option (List String)
  populations : Option (List String)
  preprocess : Bool
  results_path : Option String
  species : String
  thresh : ℚ
deriving DecidableEq, Repr

/-- The flag values of an invocation that supplies only the two required
flags, every other flag keeping its `DEFINE_*` default
(`src/main.py` lines 23-61). -/
def default_flags (dp dn : String) : Flags where
  cpus := none
  data_path := some dp
  dataset_name := some dn
  debug := false
  miR_figures := DRAW_TOP_10
  miR_list := none
  populations := none
  preprocess := FLAGS_preprocess_default
  results_path := none
  species := SPECIES_HOMO_SAPIENS
  thresh := ACTIVITY_THRESH

/-- Modelled from the spec: the absl flag-parsing machinery is external code;
per §6, it runs the registered validators before `main` and hence before any
I/O.  The checks themselves are translated from `src/main.py`: membership of
`species` and `miR_figures` in their fixed supported sets (lines 63-70), plus
the two `mark_flag_as_required` checks (lines 72-73). -/
def validate_flags (f : Flags) : Option UsageError :=
  if f.species ∈ SUPPORTED_SPECIES then
    if f.miR_figures ∈ SUPPORTED_DRAW then
      if f.data_path.isSome && f.dataset_name.isSome then none
      else some UsageError.missingRequired
    else some (UsageError.unsupportedDraw f.miR_figures SUPPORTED_DRAW)
  else some (UsageError.unsupportedSpecies f.species SUPPORTED_SPECIES)

/-- Embedding of `app.run(main)` (`src/main.py` lines 336-351): validate the
flags, then call `compute`, passing every flag value through explicitly. -/
def app_run (u : Utils) (f : Flags) : List Event × Option UsageError :=
  match validate_flags f with
  | some e => ([], some e)
  | none =>
      compute u (f.data_path.getD "") (f.dataset_name.getD "") f.miR_list f.cpus
        f.results_path f.species f.miR_figures f.preprocess f.thresh f.populations f.debug

/-- Is this event a data-type detection call (`utils.check_data_type`)? -/
def isDetect : Event → Bool
  | Event.check_data_type _ => true
  | _ => false

/-- The results path an event writes output under, when the source passes one
to that collaborator. -/
def writesTo : Event → Option String
  | Event.compute_mir_activity rp _ => some rp
  | Event.sort_activity_spatial rp => some rp
  | Event.produce_spatial_maps rp => some rp
  | Event.plot_sc rp => some rp
  | _ => none

/-- Events belonging to the spatial postprocessing pipeline. -/
def isSpatialPP : Event → Bool
  | Event.get_spatial_coors _ _ => true
  | Event.sort_activity_spatial _ => true
  | Event.produce_spatial_maps _ => true
  | _ => false

/-- Events belonging to the single-cell postprocessing pipeline. -/
def isScPP : Event → Bool
  | Event.generate_umap _ => true
  | Event.sort_activity_sc => true
  | Event.plot_sc _ => true
  | _ => false

/-- Events that render figure output. -/
def isRender : Event → Bool
  | Event.produce_spatial_maps _ => true
  | Event.plot_sc _ => true
  | _ => false

/-!
The Activity Scoring Engine.  `utils.compute_mir_activity` is not under
`src/`; the engine below is modelled from the spec (§4.2, §5): a static
contiguous partition of the microRNA list across workers, each worker scoring
its chunk against the full matrix, results concatenated in partition order
(indexed reassembly).
-/

/-- Split a list into contiguous chunks of `size` elements. -/
def chunkList (size : Nat) (l : List α) : List (List α) :=
  if h : size = 0 ∨ l.length = 0 then []
  else l.take size :: chunkList size (l.drop size)
termination_by l.length
decreasing_by
  push_neg at h
  simp only [List.length_drop]
  omega

/-- The target gene list of one microRNA in the catalog. -/
def targetsOf (C : MtiData) (mir : String) : List String :=
  (C.lookup mir).getD []

/-- The target genes of a microRNA that are present in the matrix's gene
index (§4.2: targets "intersected with genes present in the matrix"). -/
def overlap (M : DataFrame) (targets : List String) : List String :=
  targets.filter (fun g => M.genes.contains g)

/-- The genes of a matrix paired with their expression values in column `j`. -/
def geneValues (M : DataFrame) (j : Nat) : List (String × ℚ) :=
  M.genes.zip (M.rows.map (fun r => r.getD j 0))

/-- Modelled from the spec: `utils.compute_mir_activity` is not under `src/`;
per §4.2, score one (microRNA, cell) pair by testing
the target-gene values against the background-gene values of that column,
using the pluggable two-sample test primitive `test`. -/
def scoreCell (test : List ℚ → List ℚ → ℚ) (M : DataFrame) (targets : List String)
    (j : Nat) : ℚ :=
  let gv := geneValues M j
  let tvals := (gv.filter (fun p => targets.contains p.1)).map Prod.snd
  let bvals := (gv.filter (fun p => !targets.contains p.1)).map Prod.snd
  test tvals bvals

/-- Modelled from the spec: `utils.compute_mir_activity` is not under `src/`;
per §4.2, one microRNA's result row.  A microRNA
whose target set has zero overlap with the matrix's genes is recorded with
the sentinel p-value 1 in every column; otherwise every column is scored. -/
def scoreRow (test : List ℚ → List ℚ → ℚ) (M : DataFrame) (C : MtiData)
    (mir : String) : List ℚ :=
  let ov := overlap M (targetsOf C mir)
  if ov.isEmpty then M.cells.map (fun _ => (1 : ℚ))
  else (List.range M.cells.length).map (fun j => scoreCell test M ov j)

/-- Modelled from the spec: `utils.compute_mir_activity` is not under `src/`;
per §4.2 and §5, the scoring engine
`score(counts_norm, microRNA_list, target_catalog, worker_count)`.  The
microRNA list is statically partitioned into `workers` contiguous chunks,
each worker maps `scoreRow` over its chunk, and the per-worker outputs are
concatenated in partition order. -/
def score (test : List ℚ → List ℚ → ℚ) (M : DataFrame) (L : List String)
    (C : MtiData) (workers : Nat) : PvalMatrix :=
  let csize := max 1 ((L.length + workers - 1) / workers)
  ((chunkList csize L).map (fun chunk => chunk.map (fun m => (m, scoreRow test M C m)))).flatten

/-- A small concrete count matrix used by the witnesses: two genes, two
cells. -/
def M0 : DataFrame := ⟨["g1", "g2"], ["c1", "c2"], [[1, 2], [3, 4]]⟩

/-- A concrete target catalog used by the witnesses: "m2" targets only a gene
absent from `M0`. -/
def C0 : MtiData := [("m1", ["g1"]), ("m2", ["g5"])]

/-- A concrete microRNA list used by the witnesses. -/
def L0 : List String := ["m1", "m2"]

/-- A concrete instance of the pluggable two-sample test primitive, used by
the witnesses. -/
def testDiff : List ℚ → List ℚ → ℚ :=
  fun a b => a.sum - b.sum

/-- A concrete collaborator instance used by the witnesses: paths equal to
"sp" are classified spatial, all others single-cell. -/
def sampleUtils : Utils where
  check_data_type := fun p => if p = "sp" then DataType.spatial else DataType.singleCell
  visium_loader := fun _ => M0
  scRNAseq_preprocess_loader := fun _ _ => M0
  scRNAseq_loader := fun _ => M0
  normalize_counts := fun M => M
  mir_data_loading := fun ml _ _ => (C0, ml.getD L0)
  compute_mir_activity := fun _ _ _ _ _ _ => []
  cpu_count := 4

theorem chunkList_flatten (size : Nat) (hs : 0 < size) (l : List α) :
    (chunkList size l).flatten = l := by
  rw [chunkList]
  split
  · rename_i h
    rcases h with h | h
    · omega
    · simp [List.length_eq_zero.mp h]
  · rename_i h
    push_neg at h
    rw [List.flatten_cons, chunkList_flatten size hs (l.drop size), List.take_append_drop]
termination_by l.length
decreasing_by
  simp only [List.length_drop]
  omega

/-- The engine equals the sequential map over the microRNA list, whatever the
worker count: static partition plus in-order concatenation loses nothing. -/
theorem score_eq_map (test : List ℚ → List ℚ → ℚ) (M : DataFrame) (L : List String)
    (C : MtiData) (workers : Nat) :
    score test M L C workers = L.map (fun m => (m, scoreRow test M C m)) := by
  simp only [score]
  rw [← List.map_flatten,
    chunkList_flatten _ (Nat.lt_of_lt_of_le one_pos (le_max_left 1 _))]

/-- Claim C1: for every fixed normalized count matrix `M`, microRNA list `L`
and target catalog `C`, the activity scoring result is identical for every
worker count: `score M L C k = score M L C 1` for every `k ≥ 1`; the
partition-and-reassemble engine has no randomization and no order-dependent
aggregation. -/
theorem score_worker_count_invariant (test : List ℚ → List ℚ → ℚ) (M : DataFrame)
    (L : List String) (C : MtiData) (k : Nat) (hk : 1 ≤ k) :
    score test M L C k = score test M L C 1 := by
  rw [score_eq_map, score_eq_map]

theorem score_worker_count_invariant_witness :
    1 ≤ 3 ∧ score testDiff M0 L0 C0 3 = score testDiff M0 L0 C0 1 :=
  ⟨by decide, score_worker_count_invariant testDiff M0 L0 C0 3 (by decide)⟩

/-- Claim C6: a microRNA in the resolved list whose target set has zero
overlap with the matrix's gene index is retained in the scoring output (not
dropped) with the sentinel p-value 1 in every cell/spot column, for any
worker count; the (total) engine raises no error. -/
theorem score_zero_overlap_sentinel (test : List ℚ → List ℚ → ℚ) (M : DataFrame)
    (L : List String) (C : MtiData) (mir : String) (k : Nat)
    (hmem : mir ∈ L) (hov : overlap M (targetsOf C mir) = []) (hk : 1 ≤ k) :
    (mir, M.cells.map (fun _ => (1 : ℚ))) ∈ score test M L C k := by
  rw [score_eq_map]
  refine List.mem_map.mpr ⟨mir, hmem, ?_⟩
  simp [scoreRow, hov]

theorem score_zero_overlap_sentinel_witness :
    ("m2", [(1 : ℚ), 1]) ∈ score testDiff M0 L0 C0 2 := by
  have h := score_zero_overlap_sentinel testDiff M0 L0 C0 "m2" 2 (by decide) (by decide)
    (by decide)
  simpa [M0] using h

/-- Claim C7: `computing_mir_activity` resolves `cpus = cpus or
mp.cpu_count()`, so the scoring engine is invoked with all available
processing units when `cpus` is `None`, and with exactly `k` workers when a
positive `k` is supplied. -/
theorem computing_mir_activity_cpu_resolution (u : Utils) (cn : DataFrame)
    (rp : String) (ml : Option (List String)) (sp : String) (dbg : Bool) :
    (computing_mir_activity u cn rp ml none sp dbg).1
      = [Event.mir_data_loading sp, Event.compute_mir_activity rp u.cpu_count]
    ∧ ∀ k : Int, 0 < k →
      (computing_mir_activity u cn rp ml (some k) sp dbg).1
        = [Event.mir_data_loading sp, Event.compute_mir_activity rp k] := by
  constructor
  · rfl
  · intro k hk
    simp [computing_mir_activity, pyOrInt]
    omega

theorem computing_mir_activity_cpu_resolution_witness :
    (computing_mir_activity sampleUtils M0 "rp" none none "homo_sapiens" false).1
      = [Event.mir_data_loading "homo_sapiens", Event.compute_mir_activity "rp" 4]
    ∧ (computing_mir_activity sampleUtils M0 "rp" none (some 3) "homo_sapiens" false).1
      = [Event.mir_data_loading "homo_sapiens", Event.compute_mir_activity "rp" 3] := by
  have h := computing_mir_activity_cpu_resolution sampleUtils M0 "rp" none "homo_sapiens" false
  exact ⟨h.1, h.2 3 (by decide)⟩

/-- Claim C3: each postprocessor re-validates the resolved data type against
its required type and, on mismatch, raises a `UsageError` naming the
offending path, without producing any figure output or calling any rendering
collaborator. -/
theorem postprocessing_type_guard (u : Utils) (dp : String) (cn counts : DataFrame)
    (pv : PvalMatrix) (ml : List String) (rp dn mf : String) (th : ℚ)
    (pops : Option (List String)) :
    (∀ dto, resolvedDataType u dp dto ≠ DataType.spatial →
        mir_post_processing_spatial u dp cn pv ml rp dn dto mf th
          = (resolve_data_type_events dp dto, some (UsageError.noSpatialData dp))
        ∧ ∀ e ∈ (mir_post_processing_spatial u dp cn pv ml rp dn dto mf th).1,
            isRender e = false)
    ∧ (∀ dto, resolvedDataType u dp dto ≠ DataType.singleCell →
        mir_post_processing_sc u dp counts pv ml rp dn dto mf pops
          = (resolve_data_type_events dp dto, some (UsageError.noScData dp))
        ∧ ∀ e ∈ (mir_post_processing_sc u dp counts pv ml rp dn dto mf pops).1,
            isRender e = false) := by
  constructor
  · intro dto hne
    have he : mir_post_processing_spatial u dp cn pv ml rp dn dto mf th
        = (resolve_data_type_events dp dto, some (UsageError.noSpatialData dp)) := by
      simp [mir_post_processing_spatial, hne]
    refine ⟨he, ?_⟩
    rw [he]
    cases dto <;> simp [resolve_data_type_events, isRender]
  · intro dto hne
    have he : mir_post_processing_sc u dp counts pv ml rp dn dto mf pops
        = (resolve_data_type_events dp dto, some (UsageError.noScData dp)) := by
      simp [mir_post_processing_sc, hne]
    refine ⟨he, ?_⟩
    rw [he]
    cases dto <;> simp [resolve_data_type_events, isRender]

theorem postprocessing_type_guard_witness :
    mir_post_processing_spatial sampleUtils "dp" M0 [] [] "rp" "ds"
        (some DataType.singleCell) "top_10" (1 / 20)
      = ([], some (UsageError.noSpatialData "dp"))
    ∧ mir_post_processing_sc sampleUtils "dp" M0 [] [] "rp" "ds"
        (some DataType.spatial) "top_10" none
      = ([], some (UsageError.noScData "dp")) := by
  have h1 := (postprocessing_type_guard sampleUtils "dp" M0 M0 [] [] "rp" "ds" "top_10"
    (1 / 20) none).1 (some DataType.singleCell) (by decide)
  have h2 := (postprocessing_type_guard sampleUtils "dp" M0 M0 [] [] "rp" "ds" "top_10"
    (1 / 20) none).2 (some DataType.spatial) (by decide)
  exact ⟨h1.1, h2.1⟩

/-- Claim C9: the preprocess flag does not affect `data_handling` when the
resolved data type is spatial (the spatial loader ignores it), while for
single-cell data it selects between the preprocessing loader and the plain
loader. -/
theorem data_handling_preprocess_scope (u : Utils) (dp dn : String)
    (dto : Option DataType) :
    (resolvedDataType u dp dto = DataType.spatial →
        ∀ p1 p2 : Bool, data_handling u dp dn dto p1 = data_handling u dp dn dto p2)
    ∧ (resolvedDataType u dp dto = DataType.singleCell →
        (data_handling u dp dn dto true).2.2 = u.scRNAseq_preprocess_loader dn dp
        ∧ (data_handling u dp dn dto false).2.2 = u.scRNAseq_loader dp) := by
  constructor
  · intro h p1 p2
    simp [data_handling, h]
  · intro h
    constructor <;> simp [data_handling, h]

theorem data_handling_preprocess_scope_witness :
    data_handling sampleUtils "sp" "ds" none true = data_handling sampleUtils "sp" "ds" none false
    ∧ (data_handling sampleUtils "sc" "ds" none true).2.2
        = sampleUtils.scRNAseq_preprocess_loader "ds" "sc"
    ∧ (data_handling sampleUtils "sc" "ds" none false).2.2
        = sampleUtils.scRNAseq_loader "sc" := by
  have h1 := (data_handling_preprocess_scope sampleUtils "sp" "ds" none).1 (by decide) true false
  have h2 := (data_handling_preprocess_scope sampleUtils "sc" "ds" none).2 (by decide)
  exact ⟨h1, h2⟩

/-- Claim C2: the resolved results path equals `results_path/dataset_name`
when a non-empty results path is given and `data_path/results` otherwise, and
the resolution happens before any collaborator call that writes output: every
writing collaborator call in `compute`'s trace receives the already resolved
path. -/
theorem compute_results_path_resolution (u : Utils) (dp dn : String)
    (ml : Option (List String)) (cpus : Option Int) (rpo : Option String)
    (sp mf : String) (pre : Bool) (th : ℚ) (pops : Option (List String)) (dbg : Bool) :
    (∀ s : String, s ≠ "" → resolved_results_path (some s) dp dn = os_path_join s dn)
    ∧ resolved_results_path none dp dn = os_path_join dp "results"
    ∧ ∀ e ∈ (compute u dp dn ml cpus rpo sp mf pre th pops dbg).1,
        ∀ p, writesTo e = some p → p = resolved_results_path rpo dp dn := by
  refine ⟨fun s hs => by simp [resolved_results_path, hs], rfl, ?_⟩
  cases hdt : u.check_data_type dp <;> cases pre <;>
    simp [compute, data_handling, computing_mir_activity, mir_post_processing_spatial,
      mir_post_processing_sc, resolvedDataType, resolve_data_type_events, hdt, writesTo,
      List.forall_mem_cons]

theorem compute_results_path_resolution_witness :
    resolved_results_path (some "/out") "/data/ds1" "ds1" = os_path_join "/out" "ds1"
    ∧ resolved_results_path none "/data/ds1" "ds1" = os_path_join "/data/ds1" "results" := by
  have h := compute_results_path_resolution sampleUtils "/data/ds1" "ds1" none none
    (some "/out") "homo_sapiens" "top_10" false (1 / 20) none false
  exact ⟨h.1 "/out" (by decide), h.2.1⟩

/-- Claim C4: `compute` dispatches to exactly one postprocessor: when the
resolved data type is spatial, the spatial postprocessor runs on the
normalized matrix and no single-cell postprocessing event occurs; otherwise
the single-cell postprocessor runs on the raw matrix and no spatial
postprocessing event occurs. -/
theorem compute_postprocess_dispatch (u : Utils) (dp dn : String)
    (ml : Option (List String)) (cpus : Option Int) (rpo : Option String)
    (sp mf : String) (pre : Bool) (th : ℚ) (pops : Option (List String)) (dbg : Bool) :
    (u.check_data_type dp = DataType.spatial →
        Event.get_spatial_coors dp
            (data_handling u dp dn (some (u.check_data_type dp)) pre).2.1
          ∈ (compute u dp dn ml cpus rpo sp mf pre th pops dbg).1
        ∧ ∀ e ∈ (compute u dp dn ml cpus rpo sp mf pre th pops dbg).1, isScPP e = false)
    ∧ (u.check_data_type dp = DataType.singleCell →
        Event.generate_umap
            (data_handling u dp dn (some (u.check_data_type dp)) pre).2.2
          ∈ (compute u dp dn ml cpus rpo sp mf pre th pops dbg).1
        ∧ ∀ e ∈ (compute u dp dn ml cpus rpo sp mf pre th pops dbg).1, isSpatialPP e = false) := by
  constructor <;> intro h <;> cases pre <;>
    simp [compute, data_handling, computing_mir_activity, mir_post_processing_spatial,
      mir_post_processing_sc, resolvedDataType, resolve_data_type_events, h,
      isScPP, isSpatialPP, List.forall_mem_cons]

theorem compute_postprocess_dispatch_witness :
    (Event.get_spatial_coors "sp"
        (data_handling sampleUtils "sp" "ds" (some (sampleUtils.check_data_type "sp")) false).2.1
      ∈ (compute sampleUtils "sp" "ds" none none none "homo_sapiens" "top_10" false
          (1 / 20) none false).1)
    ∧ (Event.generate_umap
        (data_handling sampleUtils "sc" "ds" (some (sampleUtils.check_data_type "sc")) false).2.2
      ∈ (compute sampleUtils "sc" "ds" none none none "homo_sapiens" "top_10" false
          (1 / 20) none false).1) := by
  have h1 := (compute_postprocess_dispatch sampleUtils "sp" "ds" none none none
    "homo_sapiens" "top_10" false (1 / 20) none false).1 (by decide)
  have h2 := (compute_postprocess_dispatch sampleUtils "sc" "ds" none none none
    "homo_sapiens" "top_10" false (1 / 20) none false).2 (by decide)
  exact ⟨h1.1, h2.1⟩

/-- Claim C5: within one `compute` run, `check_data_type` is invoked exactly
once (the single call at the top of `compute`); the re-detection fallbacks in
`data_handling` and the postprocessors receive the stored value and never
execute, so the whole run reads one consistent classification. -/
theorem compute_single_detection (u : Utils) (dp dn : String)
    (ml : Option (List String)) (cpus : Option Int) (rpo : Option String)
    (sp mf : String) (pre : Bool) (th : ℚ) (pops : Option (List String)) (dbg : Bool) :
    (compute u dp dn ml cpus rpo sp mf pre th pops dbg).1.countP (fun e => isDetect e) = 1 := by
  cases hdt : u.check_data_type dp <;> cases pre <;>
    simp [compute, data_handling, computing_mir_activity, mir_post_processing_spatial,
      mir_post_processing_sc, resolvedDataType, resolve_data_type_events, hdt, isDetect,
      List.countP_cons, List.countP_append]

/-- Claim C8: a CLI invocation with a species or plot-mode value outside its
fixed supported set is rejected at flag validation, before any I/O, loading
or scoring (the event trace is empty), with a usage error carrying the
offending value and the supported set. -/
theorem flag_validation_rejects (u : Utils) (f : Flags) :
    (f.species ∉ SUPPORTED_SPECIES →
        app_run u f = ([], some (UsageError.unsupportedSpecies f.species SUPPORTED_SPECIES)))
    ∧ (f.species ∈ SUPPORTED_SPECIES → f.miR_figures ∉ SUPPORTED_DRAW →
        app_run u f = ([], some (UsageError.unsupportedDraw f.miR_figures SUPPORTED_DRAW))) := by
  constructor
  · intro h
    simp [app_run, validate_flags, h]
  · intro h1 h2
    simp [app_run, validate_flags, h1, h2]

theorem flag_validation_rejects_witness :
    app_run sampleUtils { default_flags "d" "n" with species := "felis_catus" }
      = ([], some (UsageError.unsupportedSpecies "felis_catus" SUPPORTED_SPECIES))
    ∧ app_run sampleUtils { default_flags "d" "n" with miR_figures := "top_3" }
      = ([], some (UsageError.unsupportedDraw "top_3" SUPPORTED_DRAW)) := by
  have h1 := (flag_validation_rejects sampleUtils
    { default_flags "d" "n" with species := "felis_catus" }).1 (by decide)
  have h2 := (flag_validation_rejects sampleUtils
    { default_flags "d" "n" with miR_figures := "top_3" }).2 (by decide) (by decide)
  exact ⟨h1, h2⟩

/-- Claim C10: the `preprocess` parameter defaults to `True` in both `compute`
and `data_handling`, while the CLI flag defaults to `False` and `main` passes
the flag value through explicitly — so a programmatic call without an explicit
`preprocess` runs the merge-and-subsample loader on single-cell data, whereas
a default CLI invocation runs the plain loader. -/
theorem preprocess_default_discrepancy (u : Utils) (dp dn : String)
    (h : u.check_data_type dp = DataType.singleCell) :
    compute_preprocess_default = true
    ∧ data_handling_preprocess_default = true
    ∧ FLAGS_preprocess_default = false
    ∧ Event.scRNAseq_preprocess_loader dn dp
        ∈ (compute u dp dn none none none SPECIES_HOMO_SAPIENS DRAW_TOP_10
            compute_preprocess_default ACTIVITY_THRESH none false).1
    ∧ Event.scRNAseq_preprocess_loader dn dp
        ∈ (data_handling u dp dn none data_handling_preprocess_default).1
    ∧ Event.scRNAseq_loader dp ∈ (app_run u (default_flags dp dn)).1
    ∧ Event.scRNAseq_preprocess_loader dn dp ∉ (app_run u (default_flags dp dn)).1 := by
  refine ⟨rfl, rfl, rfl, ?_, ?_, ?_, ?_⟩ <;>
    simp [compute, app_run, validate_flags, default_flags, data_handling,
      computing_mir_activity, mir_post_processing_sc, mir_post_processing_spatial,
      resolvedDataType, resolve_data_type_events, h, SPECIES_HOMO_SAPIENS,
      SUPPORTED_SPECIES, DRAW_TOP_10, SUPPORTED_DRAW, compute_preprocess_default,
      data_handling_preprocess_default, FLAGS_preprocess_default]

theorem preprocess_default_discrepancy_witness :
    Event.scRNAseq_preprocess_loader "ds" "sc"
      ∈ (compute sampleUtils "sc" "ds" none none none SPECIES_HOMO_SAPIENS DRAW_TOP_10
          compute_preprocess_default ACTIVITY_THRESH none false).1
    ∧ Event.scRNAseq_loader "sc" ∈ (app_run sampleUtils (default_flags "sc" "ds")).1 := by
  have h := preprocess_default_discrepancy sampleUtils "sc" "ds" (by decide)
  exact ⟨h.2.2.2.1, h.2.2.2.2.2.1⟩

end MirMaps
